import Mathlib

/-!
Shallow embedding of the weather-risk analysis code of the
NSAC-2025bluesoft repository, taken from `src/components/Map2D.tsx` and
`src/pages/Index.tsx`.

Modelling conventions:
* numbers are exact rationals (`ℚ`) where the code does plain arithmetic,
  and reals (`ℝ`) for the simulated current-weather generator, which
  calls `Math.sin`;
* `Math.round` is JavaScript rounding: nearest integer, halves toward
  positive infinity, i.e. `⌊x + 1/2⌋`;
* `Math.random()` is modelled as an explicit stream `ℕ → ℝ` of samples,
  consumed in exactly the order the source calls it;
* fields the code formats into strings by interpolating a number (the
  `threshold` labels such as `>32°C`) are kept structured as comparison
  sign, numeric value and unit;
* the backend `/analyze` endpoint is not part of the repository sources
  available here, so `analyzeWeatherRisk` takes the backend response as
  an `Option`-valued input: `none` is the network-failure path, which the
  code handles in its `catch` block.
-/

namespace NSAC

/-- JavaScript `Math.round` on rationals: nearest integer, halves toward `+∞`. -/
def jsRound (q : ℚ) : ℤ := ⌊q + 1/2⌋

/-- The `WeatherThresholds` interface of `Map2D.tsx` (lines 1121–1127). -/
structure WeatherThresholds where
  hotTemp : ℚ
  coldTemp : ℚ
  precipitation : ℚ
  windSpeed : ℚ
  comfortIndex : ℚ
deriving DecidableEq

/-- A threshold label such as `>32°C`: the code interpolates the numeric
threshold into a string; it is kept structured here. -/
structure ThresholdText where
  comparison : String
  value : ℚ
  unit : String
deriving DecidableEq

/-- The `WeatherProbability` interface of `Map2D.tsx` (lines 1129–1135). -/
structure WeatherProbability where
  condition : String
  probability : ℚ
  threshold : ThresholdText
  trend : String
  confidence : ℚ
deriving DecidableEq

/-- `calculateWeatherProbabilitiesLocal` of `Map2D.tsx` (lines 1940–1975),
the fallback local simulation.  `month` is JavaScript `date.getMonth()`
(0 = January … 11 = December); the code reads only the latitude of the
location and the month of the date. -/
def calculateWeatherProbabilitiesLocal (lat lng : ℚ) (month : ℕ)
    (thresholds : WeatherThresholds) : List WeatherProbability :=
  let latAbs := |lat|
  [ { condition := "Very Hot"
    , probability := min 90 (max 5 ((30 - latAbs) * 2 +
        (if 5 ≤ month ∧ month ≤ 8 then 30 else 0)))
    , threshold := { comparison := ">", value := thresholds.hotTemp, unit := "°C" }
    , trend := if latAbs < 30 then "increasing" else "stable"
    , confidence := 85/100 }
  , { condition := "Very Cold"
    , probability := min 90 (max 5 (latAbs * (3/2) +
        (if 11 ≤ month ∨ month ≤ 2 then 40 else 0)))
    , threshold := { comparison := "<", value := thresholds.coldTemp, unit := "°C" }
    , trend := if 40 < latAbs then "increasing" else "stable"
    , confidence := 78/100 }
  , { condition := "Heavy Rain"
    , probability := min 85 (max 10 (25 +
        (if 6 ≤ month ∧ month ≤ 9 then 35 else 0) +
        (if latAbs < 10 then 20 else 0)))
    , threshold := { comparison := ">", value := thresholds.precipitation, unit := "mm" }
    , trend := "increasing"
    , confidence := 72/100 }
  , { condition := "Strong Wind"
    , probability := min 75 (max 8 (15 +
        (if 40 < latAbs then 25 else 0) +
        (if 10 ≤ month ∨ month ≤ 3 then 20 else 0)))
    , threshold := { comparison := ">", value := thresholds.windSpeed, unit := "m/s" }
    , trend := "stable"
    , confidence := 65/100 } ]

/-- The weight table of `calculateComfortIndex` (`Map2D.tsx` line 1979)
together with the `|| 0.1` default of line 1983: the four listed weights
are nonzero, so the JavaScript `||` default applies exactly to condition
names outside the table. -/
def comfortWeight (condition : String) : ℚ :=
  if condition = "Very Hot" then 3/10
  else if condition = "Very Cold" then 3/10
  else if condition = "Heavy Rain" then 1/4
  else if condition = "Strong Wind" then 3/20
  else 1/10

/-- The `discomfort` accumulator of `calculateComfortIndex`
(`Map2D.tsx` lines 1980–1985): a left fold over the probability entries. -/
def discomfort (probabilities : List WeatherProbability) : ℚ :=
  probabilities.foldl
    (fun acc p => acc + p.probability / 100 * comfortWeight p.condition) 0

/-- `calculateComfortIndex` of `Map2D.tsx` (lines 1977–1988):
`Math.round(Math.max(0, Math.min(100, (1 - discomfort) * 100)))`. -/
def calculateComfortIndex (probabilities : List WeatherProbability) : ℤ :=
  jsRound (max 0 (min 100 ((1 - discomfort probabilities) * 100)))

/-- One entry of the `alternative_dates` array of the backend response
(spec §6 response schema); passed through untouched by the client. -/
structure AlternativeDate where
  date : String
  comfort_index : ℚ
  offset_days : ℤ
  recommendation : String
deriving DecidableEq

/-- The metadata object assembled by `analyzeWeatherRisk`. -/
structure AnalysisMetadata where
  datasets_used : List String
  note : Option String
deriving DecidableEq

/-- The value `analyzeWeatherRisk` resolves with (`Map2D.tsx` line 1892). -/
structure AnalysisResult where
  probabilities : List WeatherProbability
  comfortIndex : ℚ
  alternatives : List AlternativeDate
  metadata : AnalysisMetadata
deriving DecidableEq

/-- The parsed JSON body of a successful backend `/analyze` response, as
read by `analyzeWeatherRisk` (`Map2D.tsx` lines 1915–1922). -/
structure BackendData where
  probabilities : List WeatherProbability
  comfort_index : ℚ
  alternative_dates : List AlternativeDate
  metadata : AnalysisMetadata
deriving DecidableEq

/-- `analyzeWeatherRisk` of `Map2D.tsx` (lines 1892–1938).  The backend
call is modelled by the `backendResponse` input: `some data` is a
successful fetch, `none` is any failure (network error or non-2xx), which
the code catches and answers with the local fallback: probabilities from
`calculateWeatherProbabilitiesLocal`, comfort index the constant `65`, no
alternatives, and metadata naming the fallback simulation. -/
def analyzeWeatherRisk (backendResponse : Option BackendData)
    (lat lng : ℚ) (month : ℕ) (thresholds : WeatherThresholds) : AnalysisResult :=
  match backendResponse with
  | some data =>
      { probabilities := data.probabilities
      , comfortIndex := data.comfort_index
      , alternatives := data.alternative_dates
      , metadata := data.metadata }
  | none =>
      { probabilities := calculateWeatherProbabilitiesLocal lat lng month thresholds
      , comfortIndex := 65
      , alternatives := []
      , metadata :=
          { datasets_used := ["Fallback simulation"]
          , note := some "Backend unavailable, using local simulation" } }

/-- A JSON value, for stating the shape of the request bodies the client
serializes with `JSON.stringify`. -/
inductive JsonValue where
  | num (value : ℚ)
  | str (value : String)
  | bool (value : Bool)
  | obj (fields : List (String × JsonValue))

/-- The keys of a JSON object (empty for non-objects). -/
def JsonValue.topKeys : JsonValue → List String
  | .obj fields => fields.map Prod.fst
  | _ => []

/-- The value under a key of a JSON object, if any. -/
def JsonValue.get : JsonValue → String → Option JsonValue
  | .obj fields, key => (fields.find? (fun f => f.1 = key)).map Prod.snd
  | _, _ => none

/-- The request body built by `analyzeWeatherRisk` (`Map2D.tsx`
lines 1898–1908): `JSON.stringify` of an object with top-level
`latitude`, `longitude`, `event_date` and a nested `thresholds` object. -/
def analyzeRequestBody (lat lng : ℚ) (eventDate : String)
    (thresholds : WeatherThresholds) : JsonValue :=
  .obj
    [ ("latitude", .num lat)
    , ("longitude", .num lng)
    , ("event_date", .str eventDate)
    , ("thresholds", .obj
        [ ("hot_temp", .num thresholds.hotTemp)
        , ("cold_temp", .num thresholds.coldTemp)
        , ("precipitation", .num thresholds.precipitation)
        , ("wind_speed", .num thresholds.windSpeed) ]) ]

/-- The request body built by `handleAnalyze` of `Index.tsx`
(lines 137–159): same flat shape plus an `is_current_date` flag.  The four
threshold numbers are the resolved values of its ternary expressions. -/
def handleAnalyzeRequestBody (lat lng : ℚ) (eventDate : String)
    (hotTemp coldTemp precip windSpeed : ℚ) (isToday : Bool) : JsonValue :=
  .obj
    [ ("latitude", .num lat)
    , ("longitude", .num lng)
    , ("event_date", .str eventDate)
    , ("thresholds", .obj
        [ ("hot_temp", .num hotTemp)
        , ("cold_temp", .num coldTemp)
        , ("precipitation", .num precip)
        , ("wind_speed", .num windSpeed) ])
    , ("is_current_date", .bool isToday) ]

/-- The spec §4.6 weight table, defined on exactly the four named
conditions (used to compare the code against the spec formula). -/
def specComfortWeight (condition : String) : ℚ :=
  if condition = "Very Hot" then 3/10
  else if condition = "Very Cold" then 3/10
  else if condition = "Heavy Rain" then 1/4
  else if condition = "Strong Wind" then 3/20
  else 0

/-- The spec §4.6 discomfort sum `Σ weight_i × (probability_i / 100)`. -/
def specDiscomfort (probabilities : List WeatherProbability) : ℚ :=
  (probabilities.map
    (fun p => specComfortWeight p.condition * (p.probability / 100))).sum

/-- Modelled from the spec: the backend probability engine (§4.4) is not
among the sources available under `src/`; per §4.4 its confidence is
"linearly interpolated from a floor value at very small samples to near
1.0 at full coverage", so a full-data analysis is modelled as having
confidence 1. -/
def fullCoverageConfidence : ℚ := 1

/-- The sum of the weights `calculateComfortIndex` effectively assigns to
a list of probability entries. -/
def effectiveWeightSum (probabilities : List WeatherProbability) : ℚ :=
  (probabilities.map (fun p => comfortWeight p.condition)).sum

/-- The default thresholds of the `Map2D.tsx` UI state (lines 2006–2012),
which coincide with the spec §8 end-to-end scenario thresholds. -/
def defaultThresholds : WeatherThresholds :=
  { hotTemp := 32, coldTemp := 0, precipitation := 5
  , windSpeed := 15, comfortIndex := 70 }

/-- JavaScript `Math.round` on reals, for the simulated-weather code. -/
noncomputable def jsRoundR (x : ℝ) : ℤ := ⌊x + 1/2⌋

/-- The latitude-dependent baseline temperature of
`WEATHER_API.getSimulatedWeather` (`Map2D.tsx` lines 861–862):
`20 - (|lat| / 90) * 25`. -/
noncomputable def simBaseTemp (lat : ℝ) : ℝ := 20 - |lat| / 90 * 25

/-- The sinusoidal annual-cycle term of `getSimulatedWeather`
(`Map2D.tsx` line 863): `15 * sin(2π (dayOfYear - 81) / 365)`. -/
noncomputable def simSeasonal (dayOfYear : ℕ) : ℝ :=
  15 * Real.sin (2 * Real.pi * ((dayOfYear : ℝ) - 81) / 365)

/-- The three precipitation branches of `getSimulatedWeather`. -/
inductive ClimateBranch where
  | tropical
  | winterCold
  | temperate
deriving DecidableEq

open scoped Classical in
/-- The branch dispatch of `getSimulatedWeather` (`Map2D.tsx`
lines 868–901): `isTropical = |lat| < 23.5` selects the tropical branch;
otherwise `isWinter && temperature < 2` (with
`isWinter = dayOfYear < 80 || dayOfYear > 300`) selects the snow branch;
otherwise the temperate branch runs. -/
noncomputable def simClimateBranch (lat : ℝ) (dayOfYear : ℕ)
    (temperature : ℤ) : ClimateBranch :=
  if |lat| < 47/2 then .tropical
  else if (dayOfYear < 80 ∨ 300 < dayOfYear) ∧ temperature < 2 then .winterCold
  else .temperate

/-- The record returned by `WEATHER_API.getSimulatedWeather`
(the `CurrentWeatherData` shape of `Map2D.tsx`). -/
structure CurrentWeatherData where
  temperature : ℤ
  feels_like : ℤ
  humidity : ℤ
  pressure : ℤ
  visibility : ℤ
  wind_speed : ℝ
  wind_direction : ℤ
  precipitation : ℝ
  weather_main : String
  weather_description : String
  location_name : String
  data_source : String
  timestamp : String

open scoped Classical in
/-- `WEATHER_API.getSimulatedWeather` of `Map2D.tsx` (lines 856–917).
`dayOfYear` is derived by the code from the CURRENT date (`new Date()`),
never from any requested date, and `rand` is the `Math.random()` stream,
indexed in call order.  Each branch records which stream index comes next,
since the branches consume different numbers of samples. -/
noncomputable def getSimulatedWeather (lat lon : ℝ) (dayOfYear : ℕ)
    (nowIso : String) (rand : ℕ → ℝ) : CurrentWeatherData :=
  let temperature : ℤ :=
    jsRoundR (simBaseTemp lat + simSeasonal dayOfYear + (rand 0 - 1/2) * 10)
  let humidity : ℤ := jsRoundR (50 + rand 1 * 40)
  let branch : String × ℝ × ℕ :=
    match simClimateBranch lat dayOfYear temperature with
    | .tropical =>
        if rand 2 > 6/10 then
          ("Rain", (jsRoundR (rand 3 * 15 * 10) : ℝ) / 10, 4)
        else if rand 3 > 4/10 then
          if rand 4 > 8/10 then
            ("Clouds", (jsRoundR (rand 5 * 3 * 10) : ℝ) / 10, 6)
          else ("Clouds", 0, 5)
        else ("Clear", 0, 4)
    | .winterCold =>
        if rand 2 > 7/10 then
          ("Snow", (jsRoundR (rand 3 * 8 * 10) : ℝ) / 10, 4)
        else ("Clear", 0, 3)
    | .temperate =>
        if rand 2 > 8/10 then
          ("Rain", (jsRoundR (rand 3 * 12 * 10) : ℝ) / 10, 4)
        else if rand 2 > 5/10 then
          if rand 3 > 9/10 then
            ("Clouds", (jsRoundR (rand 4 * 2 * 10) : ℝ) / 10, 5)
          else ("Clouds", 0, 4)
        else ("Clear", 0, 3)
  let n := branch.2.2
  { temperature := temperature
  , feels_like := temperature + jsRoundR ((rand n - 1/2) * 5)
  , humidity := humidity
  , pressure := jsRoundR (1000 + rand (n + 1) * 50)
  , visibility := jsRoundR (5000 + rand (n + 2) * 10000)
  , wind_speed := (jsRoundR (rand (n + 3) * 20 * 10) : ℝ) / 10
  , wind_direction := jsRoundR (rand (n + 4) * 360)
  , precipitation := branch.2.1
  , weather_main := branch.1
  , weather_description := branch.1.toLower
  , location_name := "Simulated Location"
  , data_source := "simulated"
  , timestamp := nowIso }

/-! ## Shared lemmas -/

lemma jsRound_eq_of (q : ℚ) (z : ℤ) (h1 : (z : ℚ) ≤ q + 1/2)
    (h2 : q + 1/2 < z + 1) : jsRound q = z := by
  unfold jsRound
  rw [Int.floor_eq_iff]
  exact ⟨h1, by exact_mod_cast h2⟩

lemma jsRound_zero : jsRound 0 = 0 :=
  jsRound_eq_of 0 0 (by norm_num) (by norm_num)

lemma jsRound_hundred : jsRound 100 = 100 :=
  jsRound_eq_of 100 100 (by norm_num) (by norm_num)

lemma jsRound_mono {q r : ℚ} (h : q ≤ r) : jsRound q ≤ jsRound r := by
  unfold jsRound
  exact Int.floor_le_floor (by linarith)

/-- Rounding after clamping to `[0, 100]` is clamping after rounding. -/
lemma jsRound_clamp (q : ℚ) :
    jsRound (max 0 (min 100 q)) = max 0 (min 100 (jsRound q)) := by
  rcases le_total q 0 with hq | hq
  · have h2 : jsRound q ≤ 0 := by
      have := jsRound_mono hq
      rwa [jsRound_zero] at this
    rw [min_eq_right (by linarith : q ≤ (100 : ℚ)), max_eq_left hq, jsRound_zero,
      min_eq_right (by omega : jsRound q ≤ (100 : ℤ)), max_eq_left h2]
  · rcases le_total 100 q with hq2 | hq2
    · have h2 : 100 ≤ jsRound q := by
        have := jsRound_mono hq2
        rwa [jsRound_hundred] at this
      rw [min_eq_left hq2, max_eq_right (by norm_num : (0 : ℚ) ≤ 100), jsRound_hundred,
        min_eq_left h2, max_eq_right (by omega : (0 : ℤ) ≤ 100)]
    · have h2 : 0 ≤ jsRound q := by
        have := jsRound_mono hq
        rwa [jsRound_zero] at this
      have h3 : jsRound q ≤ 100 := by
        have := jsRound_mono hq2
        rwa [jsRound_hundred] at this
      rw [min_eq_right hq2, max_eq_right hq, min_eq_right h3, max_eq_right h2]

lemma foldl_add_eq (l : List WeatherProbability) (f : WeatherProbability → ℚ)
    (a : ℚ) : l.foldl (fun acc p => acc + f p) a = a + (l.map f).sum := by
  induction l generalizing a with
  | nil => simp
  | cons p t ih => simp [List.foldl_cons, ih]; ring

lemma discomfort_eq_sum (l : List WeatherProbability) :
    discomfort l =
      (l.map (fun p => p.probability / 100 * comfortWeight p.condition)).sum := by
  unfold discomfort
  rw [foldl_add_eq l (fun p => p.probability / 100 * comfortWeight p.condition) 0,
    zero_add]

lemma comfortWeight_nonneg (c : String) : 0 ≤ comfortWeight c := by
  unfold comfortWeight
  split_ifs <;> norm_num

lemma sum_map_congr (l : List WeatherProbability) (f g : WeatherProbability → ℚ)
    (h : ∀ a ∈ l, f a = g a) : (l.map f).sum = (l.map g).sum := by
  induction l with
  | nil => rfl
  | cons a t ih =>
      simp only [List.map_cons, List.sum_cons]
      rw [h a (List.mem_cons_self a t),
        ih (fun b hb => h b (List.mem_cons_of_mem a hb))]

/-- On lists naming only the four known conditions, the spec weight table
agrees with the code weight table, so the two discomfort sums agree. -/
lemma specDiscomfort_eq_discomfort (l : List WeatherProbability)
    (h : ∀ p ∈ l, p.condition = "Very Hot" ∨ p.condition = "Very Cold" ∨
      p.condition = "Heavy Rain" ∨ p.condition = "Strong Wind") :
    specDiscomfort l = discomfort l := by
  rw [discomfort_eq_sum]
  unfold specDiscomfort
  apply sum_map_congr
  intro p hp
  rcases h p hp with h1 | h1 | h1 | h1 <;> rw [h1] <;>
    simp [specComfortWeight, comfortWeight] <;> ring

/-! ## Claim theorems -/

/-- C10: on the empty list of probability results, `calculateComfortIndex`
returns exactly 100: zero conditions contribute zero discomfort, so
absence of data is reported as maximal comfort. -/
theorem comfortIndex_empty_eq_100 : calculateComfortIndex [] = 100 := by
  unfold calculateComfortIndex discomfort
  simp only [List.foldl_nil]
  have h : max (0 : ℚ) (min 100 ((1 - 0) * 100)) = 100 := by norm_num
  rw [h]
  exact jsRound_hundred

/-- C1: for every list of probability results naming only the four known
conditions, the comfort index of `calculateComfortIndex` equals
`round(100 × (1 − Σ weight_i × (probability_i / 100)))` clamped to
`[0, 100]`, with weights 0.3 (Very Hot), 0.3 (Very Cold), 0.25 (Heavy
Rain), 0.15 (Strong Wind); and those four weights sum to 1. -/
theorem comfortIndex_eq_weighted_formula (l : List WeatherProbability)
    (h : ∀ p ∈ l, p.condition = "Very Hot" ∨ p.condition = "Very Cold" ∨
      p.condition = "Heavy Rain" ∨ p.condition = "Strong Wind") :
    calculateComfortIndex l =
      max 0 (min 100 (jsRound (100 * (1 - specDiscomfort l)))) ∧
    specComfortWeight "Very Hot" + specComfortWeight "Very Cold" +
      specComfortWeight "Heavy Rain" + specComfortWeight "Strong Wind" = 1 := by
  constructor
  · unfold calculateComfortIndex
    rw [specDiscomfort_eq_discomfort l h, mul_comm (1 - discomfort l) 100,
      jsRound_clamp]
  · have h1 : specComfortWeight "Very Hot" = 3/10 := rfl
    have h2 : specComfortWeight "Very Cold" = 3/10 := rfl
    have h3 : specComfortWeight "Heavy Rain" = 1/4 := rfl
    have h4 : specComfortWeight "Strong Wind" = 3/20 := rfl
    rw [h1, h2, h3, h4]
    norm_num

/-- Witness for C1 at a concrete one-entry list. -/
theorem comfortIndex_eq_weighted_formula_witness :
    (∀ p ∈ [({ condition := "Very Hot", probability := 50
             , threshold := { comparison := ">", value := 32, unit := "°C" }
             , trend := "stable", confidence := 1 } : WeatherProbability)],
        p.condition = "Very Hot" ∨ p.condition = "Very Cold" ∨
        p.condition = "Heavy Rain" ∨ p.condition = "Strong Wind") ∧
    (calculateComfortIndex
        [({ condition := "Very Hot", probability := 50
          , threshold := { comparison := ">", value := 32, unit := "°C" }
          , trend := "stable", confidence := 1 } : WeatherProbability)] =
      max 0 (min 100 (jsRound (100 * (1 - specDiscomfort
        [({ condition := "Very Hot", probability := 50
          , threshold := { comparison := ">", value := 32, unit := "°C" }
          , trend := "stable", confidence := 1 } : WeatherProbability)])))) ∧
    specComfortWeight "Very Hot" + specComfortWeight "Very Cold" +
      specComfortWeight "Heavy Rain" + specComfortWeight "Strong Wind" = 1) :=
  ⟨by intro p hp; simp only [List.mem_cons, List.not_mem_nil, or_false] at hp
      subst hp; left; rfl,
   comfortIndex_eq_weighted_formula _
     (by intro p hp; simp only [List.mem_cons, List.not_mem_nil, or_false] at hp
         subst hp; left; rfl)⟩

/-- C2: the comfort index is monotonically non-increasing in each single
entry's probability: raising one entry's probability (all other fields and
all other entries fixed) never increases `calculateComfortIndex`. -/
theorem comfortIndex_antitone_in_probability
    (pre post : List WeatherProbability) (p q : WeatherProbability)
    (hc : q.condition = p.condition) (hp : p.probability ≤ q.probability) :
    calculateComfortIndex (pre ++ q :: post) ≤
      calculateComfortIndex (pre ++ p :: post) := by
  have key : discomfort (pre ++ p :: post) ≤ discomfort (pre ++ q :: post) := by
    simp only [discomfort_eq_sum, List.map_append, List.sum_append,
      List.map_cons, List.sum_cons, hc]
    have hw := comfortWeight_nonneg p.condition
    have hm : p.probability / 100 * comfortWeight p.condition ≤
        q.probability / 100 * comfortWeight p.condition :=
      mul_le_mul_of_nonneg_right (by linarith) hw
    linarith
  unfold calculateComfortIndex
  apply jsRound_mono
  exact max_le_max le_rfl (min_le_min le_rfl (by linarith))

/-- Witness for C2: raising the Very Hot probability from 10 to 20. -/
theorem comfortIndex_antitone_in_probability_witness :
    (({ condition := "Very Hot", probability := 20
      , threshold := { comparison := ">", value := 32, unit := "°C" }
      , trend := "stable", confidence := 1 } : WeatherProbability).condition =
     ({ condition := "Very Hot", probability := 10
      , threshold := { comparison := ">", value := 32, unit := "°C" }
      , trend := "stable", confidence := 1 } : WeatherProbability).condition) ∧
    (({ condition := "Very Hot", probability := 10
      , threshold := { comparison := ">", value := 32, unit := "°C" }
      , trend := "stable", confidence := 1 } : WeatherProbability).probability ≤
     ({ condition := "Very Hot", probability := 20
      , threshold := { comparison := ">", value := 32, unit := "°C" }
      , trend := "stable", confidence := 1 } : WeatherProbability).probability) ∧
    calculateComfortIndex ([] ++
        ({ condition := "Very Hot", probability := 20
         , threshold := { comparison := ">", value := 32, unit := "°C" }
         , trend := "stable", confidence := 1 } : WeatherProbability) :: []) ≤
      calculateComfortIndex ([] ++
        ({ condition := "Very Hot", probability := 10
         , threshold := { comparison := ">", value := 32, unit := "°C" }
         , trend := "stable", confidence := 1 } : WeatherProbability) :: []) :=
  ⟨rfl, by norm_num,
   comfortIndex_antitone_in_probability [] [] _ _ rfl (by norm_num)⟩

lemma clamp_range (lo hi x : ℚ) (h0 : 0 ≤ lo) (hlh : lo ≤ hi) (hh : hi ≤ 100) :
    0 ≤ min hi (max lo x) ∧ min hi (max lo x) ≤ 100 :=
  ⟨le_trans h0 (le_min hlh (le_max_left lo x)),
   le_trans (min_le_left hi _) hh⟩

/-- C3: every entry produced by `calculateWeatherProbabilitiesLocal` has
its probability in `[0, 100]` and its confidence in `[0, 1]`, for every
location, month and threshold set. -/
theorem localProbabilities_in_range (lat lng : ℚ) (month : ℕ)
    (thresholds : WeatherThresholds) (p : WeatherProbability)
    (hp : p ∈ calculateWeatherProbabilitiesLocal lat lng month thresholds) :
    0 ≤ p.probability ∧ p.probability ≤ 100 ∧
    0 ≤ p.confidence ∧ p.confidence ≤ 1 := by
  unfold calculateWeatherProbabilitiesLocal at hp
  simp only [List.mem_cons, List.not_mem_nil, or_false] at hp
  rcases hp with h | h | h | h <;> subst h
  · exact ⟨(clamp_range 5 90 _ (by norm_num) (by norm_num) (by norm_num)).1,
      (clamp_range 5 90 _ (by norm_num) (by norm_num) (by norm_num)).2,
      by norm_num, by norm_num⟩
  · exact ⟨(clamp_range 5 90 _ (by norm_num) (by norm_num) (by norm_num)).1,
      (clamp_range 5 90 _ (by norm_num) (by norm_num) (by norm_num)).2,
      by norm_num, by norm_num⟩
  · exact ⟨(clamp_range 10 85 _ (by norm_num) (by norm_num) (by norm_num)).1,
      (clamp_range 10 85 _ (by norm_num) (by norm_num) (by norm_num)).2,
      by norm_num, by norm_num⟩
  · exact ⟨(clamp_range 8 75 _ (by norm_num) (by norm_num) (by norm_num)).1,
      (clamp_range 8 75 _ (by norm_num) (by norm_num) (by norm_num)).2,
      by norm_num, by norm_num⟩

/-- Witness for C3 at the equator in January with the default thresholds. -/
theorem localProbabilities_in_range_witness :
    (({ condition := "Very Hot", probability := 60
      , threshold := { comparison := ">", value := 32, unit := "°C" }
      , trend := "increasing", confidence := 85/100 } : WeatherProbability) ∈
        calculateWeatherProbabilitiesLocal 0 0 0 defaultThresholds) ∧
    (0 ≤ ({ condition := "Very Hot", probability := 60
          , threshold := { comparison := ">", value := 32, unit := "°C" }
          , trend := "increasing", confidence := 85/100 } :
            WeatherProbability).probability ∧
     ({ condition := "Very Hot", probability := 60
      , threshold := { comparison := ">", value := 32, unit := "°C" }
      , trend := "increasing", confidence := 85/100 } :
        WeatherProbability).probability ≤ 100 ∧
     0 ≤ ({ condition := "Very Hot", probability := 60
          , threshold := { comparison := ">", value := 32, unit := "°C" }
          , trend := "increasing", confidence := 85/100 } :
            WeatherProbability).confidence ∧
     ({ condition := "Very Hot", probability := 60
      , threshold := { comparison := ">", value := 32, unit := "°C" }
      , trend := "increasing", confidence := 85/100 } :
        WeatherProbability).confidence ≤ 1) := by
  have hm : ({ condition := "Very Hot", probability := 60
             , threshold := { comparison := ">", value := 32, unit := "°C" }
             , trend := "increasing", confidence := 85/100 } : WeatherProbability) ∈
      calculateWeatherProbabilitiesLocal 0 0 0 defaultThresholds := by
    unfold calculateWeatherProbabilitiesLocal defaultThresholds
    simp only [List.mem_cons]
    left
    norm_num [min_def, max_def]
  exact ⟨hm, localProbabilities_in_range 0 0 0 defaultThresholds _ hm⟩

/-- C7 counterexample: a list of four supplied conditions in which the
unknown name `Dense Fog` replaces `Strong Wind` gets the residual weight
0.1, and its effective weight sum is 0.95, strictly below 1.0 — refuting
the clause that the sum of effective weights over the supplied conditions
is never less than 1.0. -/
theorem effectiveWeightSum_below_one :
    comfortWeight "Dense Fog" = 1/10 ∧
    effectiveWeightSum
      [ { condition := "Very Hot", probability := 50
        , threshold := { comparison := ">", value := 32, unit := "°C" }
        , trend := "stable", confidence := 1 }
      , { condition := "Very Cold", probability := 50
        , threshold := { comparison := "<", value := 0, unit := "°C" }
        , trend := "stable", confidence := 1 }
      , { condition := "Heavy Rain", probability := 50
        , threshold := { comparison := ">", value := 5, unit := "mm" }
        , trend := "stable", confidence := 1 }
      , { condition := "Dense Fog", probability := 50
        , threshold := { comparison := ">", value := 1, unit := "km" }
        , trend := "stable", confidence := 1 } ] = 19/20 ∧
    (19 : ℚ)/20 < 1 := by
  refine ⟨rfl, ?_, by norm_num⟩
  have e1 : comfortWeight "Very Hot" = 3/10 := rfl
  have e2 : comfortWeight "Very Cold" = 3/10 := rfl
  have e3 : comfortWeight "Heavy Rain" = 1/4 := rfl
  have e4 : comfortWeight "Dense Fog" = 1/10 := rfl
  show comfortWeight "Very Hot" +
      (comfortWeight "Very Cold" +
        (comfortWeight "Heavy Rain" + (comfortWeight "Dense Fog" + 0))) = 19/20
  rw [e1, e2, e3, e4]
  norm_num

/-- C7 (amended): a condition name outside the four known ones receives
the positive residual weight 0.1 (it is not dropped), so appending such an
entry adds `probability/100 × 0.1` to the discomfort sum; the sum of
effective weights over the supplied conditions can nevertheless be below
1.0. -/
theorem unknown_condition_residual_weight (c : String)
    (h1 : c ≠ "Very Hot") (h2 : c ≠ "Very Cold")
    (h3 : c ≠ "Heavy Rain") (h4 : c ≠ "Strong Wind") :
    comfortWeight c = 1/10 ∧ 0 < comfortWeight c ∧
    ∀ (l : List WeatherProbability) (p : WeatherProbability),
      p.condition = c →
      discomfort (l ++ [p]) = discomfort l + p.probability / 100 * (1/10) := by
  have hw : comfortWeight c = 1/10 := by
    unfold comfortWeight
    rw [if_neg h1, if_neg h2, if_neg h3, if_neg h4]
  refine ⟨hw, by rw [hw]; norm_num, ?_⟩
  intro l p hpc
  simp only [discomfort_eq_sum, List.map_append, List.sum_append,
    List.map_cons, List.map_nil, List.sum_cons, List.sum_nil, hpc, hw, add_zero]

/-- Witness for C7 (amended) at the unknown condition name `Dense Fog`. -/
theorem unknown_condition_residual_weight_witness :
    ("Dense Fog" ≠ "Very Hot") ∧ ("Dense Fog" ≠ "Very Cold") ∧
    ("Dense Fog" ≠ "Heavy Rain") ∧ ("Dense Fog" ≠ "Strong Wind") ∧
    (comfortWeight "Dense Fog" = 1/10 ∧ 0 < comfortWeight "Dense Fog" ∧
     ∀ (l : List WeatherProbability) (p : WeatherProbability),
       p.condition = "Dense Fog" →
       discomfort (l ++ [p]) = discomfort l + p.probability / 100 * (1/10)) :=
  ⟨by decide, by decide, by decide, by decide,
   unknown_condition_residual_weight "Dense Fog"
     (by decide) (by decide) (by decide) (by decide)⟩

/-- The concrete probability list the fallback path computes for the §8
end-to-end request: latitude 40.7128, longitude −74.0060, July
(`getMonth() = 6`), default thresholds. -/
lemma localProbabilities_nyc :
    calculateWeatherProbabilitiesLocal (407128/10000) (-740060/10000) 6
        defaultThresholds =
      [ { condition := "Very Hot", probability := 85744/10000
        , threshold := { comparison := ">", value := 32, unit := "°C" }
        , trend := "stable", confidence := 85/100 }
      , { condition := "Very Cold", probability := 610692/10000
        , threshold := { comparison := "<", value := 0, unit := "°C" }
        , trend := "increasing", confidence := 78/100 }
      , { condition := "Heavy Rain", probability := 60
        , threshold := { comparison := ">", value := 5, unit := "mm" }
        , trend := "increasing", confidence := 72/100 }
      , { condition := "Strong Wind", probability := 40
        , threshold := { comparison := ">", value := 15, unit := "m/s" }
        , trend := "stable", confidence := 65/100 } ] := by
  unfold calculateWeatherProbabilitiesLocal defaultThresholds
  norm_num [abs_eq_max_neg, min_def, max_def]

lemma comfortIndex_nyc :
    calculateComfortIndex
      [ { condition := "Very Hot", probability := 85744/10000
        , threshold := { comparison := ">", value := 32, unit := "°C" }
        , trend := "stable", confidence := 85/100 }
      , { condition := "Very Cold", probability := 610692/10000
        , threshold := { comparison := "<", value := 0, unit := "°C" }
        , trend := "increasing", confidence := 78/100 }
      , { condition := "Heavy Rain", probability := 60
        , threshold := { comparison := ">", value := 5, unit := "mm" }
        , trend := "increasing", confidence := 72/100 }
      , { condition := "Strong Wind", probability := 40
        , threshold := { comparison := ">", value := 15, unit := "m/s" }
        , trend := "stable", confidence := 65/100 } ] = 58 := by
  unfold calculateComfortIndex
  have hd : discomfort
      [ { condition := "Very Hot", probability := 85744/10000
        , threshold := { comparison := ">", value := 32, unit := "°C" }
        , trend := "stable", confidence := 85/100 }
      , { condition := "Very Cold", probability := 610692/10000
        , threshold := { comparison := "<", value := 0, unit := "°C" }
        , trend := "increasing", confidence := 78/100 }
      , { condition := "Heavy Rain", probability := 60
        , threshold := { comparison := ">", value := 5, unit := "mm" }
        , trend := "increasing", confidence := 72/100 }
      , { condition := "Strong Wind", probability := 40
        , threshold := { comparison := ">", value := 15, unit := "m/s" }
        , trend := "stable", confidence := 65/100 } ] = 4189308/10000000 := by
    unfold discomfort
    simp only [List.foldl_cons, List.foldl_nil]
    have e1 : comfortWeight "Very Hot" = 3/10 := rfl
    have e2 : comfortWeight "Very Cold" = 3/10 := rfl
    have e3 : comfortWeight "Heavy Rain" = 1/4 := rfl
    have e4 : comfortWeight "Strong Wind" = 3/20 := rfl
    show 0 + 85744/10000/100 * comfortWeight "Very Hot" +
        610692/10000/100 * comfortWeight "Very Cold" +
        60/100 * comfortWeight "Heavy Rain" +
        40/100 * comfortWeight "Strong Wind" = 4189308/10000000
    rw [e1, e2, e3, e4]
    norm_num
  rw [hd]
  have hclamp : max (0 : ℚ) (min 100 ((1 - 4189308/10000000) * 100)) =
      5810692/100000 := by
    norm_num [min_def, max_def]
  rw [hclamp]
  exact jsRound_eq_of _ 58 (by norm_num) (by norm_num)

/-- C4 counterexample: for the §8 end-to-end request (40.7128, −74.0060,
event date 2025-07-04, thresholds 32/0/5/15) on the network-failure path
the client code computes, the response's comfort_index is the constant 65,
while the §4.6 weighted formula applied to the response's own four
probability entries yields 58 — so the comfort_index does not equal the
weighted formula value. -/
theorem fallback_comfortIndex_not_weighted_formula :
    (analyzeWeatherRisk none (407128/10000) (-740060/10000) 6
        defaultThresholds).comfortIndex = 65 ∧
    calculateComfortIndex
      (analyzeWeatherRisk none (407128/10000) (-740060/10000) 6
        defaultThresholds).probabilities = 58 ∧
    (65 : ℚ) ≠ ((58 : ℤ) : ℚ) := by
  refine ⟨rfl, ?_, by norm_num⟩
  have hprob : (analyzeWeatherRisk none (407128/10000) (-740060/10000) 6
      defaultThresholds).probabilities =
      calculateWeatherProbabilitiesLocal (407128/10000) (-740060/10000) 6
        defaultThresholds := rfl
  rw [hprob, localProbabilities_nyc]
  exact comfortIndex_nyc

/-- C4 (amended): for the §8 end-to-end request on the network-failure
path, the response contains exactly the four entries Very Hot, Very Cold,
Heavy Rain and Strong Wind, each with probability in `[0, 100]`; its
comfort_index, however, is the fixed fallback constant 65 rather than the
§4.6 weighted formula value. -/
theorem endToEnd_fallback_response_shape :
    (analyzeWeatherRisk none (407128/10000) (-740060/10000) 6
        defaultThresholds).probabilities.map (fun p => p.condition) =
      ["Very Hot", "Very Cold", "Heavy Rain", "Strong Wind"] ∧
    (∀ p ∈ (analyzeWeatherRisk none (407128/10000) (-740060/10000) 6
        defaultThresholds).probabilities,
      0 ≤ p.probability ∧ p.probability ≤ 100) ∧
    (analyzeWeatherRisk none (407128/10000) (-740060/10000) 6
        defaultThresholds).comfortIndex = 65 := by
  refine ⟨rfl, ?_, rfl⟩
  intro p hp
  have hprob : (analyzeWeatherRisk none (407128/10000) (-740060/10000) 6
      defaultThresholds).probabilities =
      calculateWeatherProbabilitiesLocal (407128/10000) (-740060/10000) 6
        defaultThresholds := rfl
  rw [hprob] at hp
  unfold calculateWeatherProbabilitiesLocal at hp
  simp only [List.mem_cons, List.not_mem_nil, or_false] at hp
  rcases hp with h | h | h | h <;> subst h
  · exact clamp_range 5 90 _ (by norm_num) (by norm_num) (by norm_num)
  · exact clamp_range 5 90 _ (by norm_num) (by norm_num) (by norm_num)
  · exact clamp_range 10 85 _ (by norm_num) (by norm_num) (by norm_num)
  · exact clamp_range 8 75 _ (by norm_num) (by norm_num) (by norm_num)

/-- C9 counterexample: the analysis request body the client serializes has
no `location` key at all — `latitude` and `longitude` sit at the top
level — refuting the claim that they are nested inside a `location`
object.  (Shown for the §8 scenario request; the shape is the same for
every input.) -/
theorem requestBody_has_no_location_key :
    ("location" ∉ (analyzeRequestBody (407128/10000) (-740060/10000)
        "2025-07-04" defaultThresholds).topKeys) ∧
    "latitude" ∈ (analyzeRequestBody (407128/10000) (-740060/10000)
        "2025-07-04" defaultThresholds).topKeys ∧
    "longitude" ∈ (analyzeRequestBody (407128/10000) (-740060/10000)
        "2025-07-04" defaultThresholds).topKeys := by
  refine ⟨?_, ?_, ?_⟩ <;> simp [analyzeRequestBody, JsonValue.topKeys]

/-- C9 (amended): every analysis request the client issues is the flat
object `{latitude, longitude, event_date, thresholds}` with the four
threshold fields nested under `thresholds` (and, from `Index.tsx`, an
additional `is_current_date` flag) — latitude and longitude are top-level
fields, not nested inside a `location` object. -/
theorem requestBody_flat_shape (lat lng : ℚ) (eventDate : String)
    (thresholds : WeatherThresholds)
    (hotT coldT precip windS : ℚ) (isToday : Bool) :
    (analyzeRequestBody lat lng eventDate thresholds).topKeys =
      ["latitude", "longitude", "event_date", "thresholds"] ∧
    ((analyzeRequestBody lat lng eventDate thresholds).get "thresholds").map
        JsonValue.topKeys =
      some ["hot_temp", "cold_temp", "precipitation", "wind_speed"] ∧
    (handleAnalyzeRequestBody lat lng eventDate hotT coldT precip windS
        isToday).topKeys =
      ["latitude", "longitude", "event_date", "thresholds",
        "is_current_date"] := by
  refine ⟨rfl, ?_, rfl⟩
  simp [analyzeRequestBody, JsonValue.get, JsonValue.topKeys, List.find?]

/-- C6: whenever the backend call fails, `analyzeWeatherRisk` still
resolves with a full result rather than an error: its metadata names the
fallback simulation dataset, it still carries four probability entries,
and every confidence in it is strictly below the full-coverage confidence
of a full-data analysis (spec-modelled as 1). -/
theorem fallback_result_degraded (lat lng : ℚ) (month : ℕ)
    (thresholds : WeatherThresholds) (p : WeatherProbability)
    (hp : p ∈ (analyzeWeatherRisk none lat lng month thresholds).probabilities) :
    (analyzeWeatherRisk none lat lng month thresholds).metadata.datasets_used =
      ["Fallback simulation"] ∧
    (analyzeWeatherRisk none lat lng month thresholds).probabilities.length = 4 ∧
    p.confidence < fullCoverageConfidence := by
  refine ⟨rfl, rfl, ?_⟩
  have hprob : (analyzeWeatherRisk none lat lng month thresholds).probabilities =
      calculateWeatherProbabilitiesLocal lat lng month thresholds := rfl
  rw [hprob] at hp
  unfold calculateWeatherProbabilitiesLocal at hp
  simp only [List.mem_cons, List.not_mem_nil, or_false] at hp
  unfold fullCoverageConfidence
  rcases hp with h | h | h | h <;> subst h <;> norm_num

/-- Witness for C6 at the equator in January with the default thresholds. -/
theorem fallback_result_degraded_witness :
    (({ condition := "Very Hot", probability := 60
      , threshold := { comparison := ">", value := 32, unit := "°C" }
      , trend := "increasing", confidence := 85/100 } : WeatherProbability) ∈
        (analyzeWeatherRisk none 0 0 0 defaultThresholds).probabilities) ∧
    ((analyzeWeatherRisk none 0 0 0 defaultThresholds).metadata.datasets_used =
        ["Fallback simulation"] ∧
     (analyzeWeatherRisk none 0 0 0 defaultThresholds).probabilities.length = 4 ∧
     ({ condition := "Very Hot", probability := 60
      , threshold := { comparison := ">", value := 32, unit := "°C" }
      , trend := "increasing", confidence := 85/100 } :
        WeatherProbability).confidence < fullCoverageConfidence) := by
  have hm : ({ condition := "Very Hot", probability := 60
             , threshold := { comparison := ">", value := 32, unit := "°C" }
             , trend := "increasing", confidence := 85/100 } : WeatherProbability) ∈
      (analyzeWeatherRisk none 0 0 0 defaultThresholds).probabilities := by
    show ({ condition := "Very Hot", probability := 60
          , threshold := { comparison := ">", value := 32, unit := "°C" }
          , trend := "increasing", confidence := 85/100 } : WeatherProbability) ∈
      calculateWeatherProbabilitiesLocal 0 0 0 defaultThresholds
    unfold calculateWeatherProbabilitiesLocal defaultThresholds
    simp only [List.mem_cons]
    left
    norm_num [min_def, max_def]
  exact ⟨hm, fallback_result_degraded 0 0 0 defaultThresholds _ hm⟩

lemma jsRoundR_eq_of (x : ℝ) (z : ℤ) (hz1 : (z : ℝ) ≤ x + 1/2)
    (hz2 : x + 1/2 < (z : ℝ) + 1) : jsRoundR x = z := by
  unfold jsRoundR
  rw [Int.floor_eq_iff]
  exact ⟨hz1, hz2⟩

/-- C5 counterexample: two calls of `getSimulatedWeather` with identical
location and date but different `Math.random()` samples return different
observations (here: humidity 50 versus 86) — the generator is not a
deterministic function of location and date. -/
theorem simulatedWeather_not_deterministic :
    getSimulatedWeather 0 0 100 "2025-07-04T00:00:00.000Z" (fun _ => 0) ≠
      getSimulatedWeather 0 0 100 "2025-07-04T00:00:00.000Z"
        (fun _ => 9/10) := by
  intro h
  have hh := congrArg CurrentWeatherData.humidity h
  have h1 : (getSimulatedWeather 0 0 100 "2025-07-04T00:00:00.000Z"
      (fun _ => 0)).humidity = 50 := by
    show jsRoundR (50 + (0 : ℝ) * 40) = 50
    exact jsRoundR_eq_of _ 50 (by norm_num) (by norm_num)
  have h2 : (getSimulatedWeather 0 0 100 "2025-07-04T00:00:00.000Z"
      (fun _ => (9:ℝ)/10)).humidity = 86 := by
    show jsRoundR (50 + (9:ℝ)/10 * 40) = 86
    exact jsRoundR_eq_of _ 86 (by norm_num) (by norm_num)
  rw [h1, h2] at hh
  exact absurd hh (by norm_num)

/-- C5 (amended): `getSimulatedWeather` is a deterministic function of
location, current date and the `Math.random()` sample stream — two calls
with identical inputs INCLUDING the sampled randomness return identical
observations — and every simulated record is tagged
`data_source = "simulated"`; it is not deterministic in (location, date)
alone. -/
theorem simulatedWeather_deterministic_in_samples
    (lat lon : ℝ) (dayOfYear : ℕ) (nowIso : String) (r s : ℕ → ℝ)
    (h : r = s) :
    getSimulatedWeather lat lon dayOfYear nowIso r =
      getSimulatedWeather lat lon dayOfYear nowIso s ∧
    (getSimulatedWeather lat lon dayOfYear nowIso r).data_source =
      "simulated" := by
  subst h
  exact ⟨rfl, rfl⟩

/-- Witness for C5 (amended) with the constant-zero sample stream. -/
theorem simulatedWeather_deterministic_in_samples_witness :
    ((fun _ : ℕ => (0 : ℝ)) = (fun _ : ℕ => (0 : ℝ))) ∧
    (getSimulatedWeather 0 0 100 "2025-07-04T00:00:00.000Z"
        (fun _ : ℕ => (0 : ℝ)) =
      getSimulatedWeather 0 0 100 "2025-07-04T00:00:00.000Z"
        (fun _ : ℕ => (0 : ℝ)) ∧
     (getSimulatedWeather 0 0 100 "2025-07-04T00:00:00.000Z"
        (fun _ : ℕ => (0 : ℝ))).data_source = "simulated") :=
  ⟨rfl, simulatedWeather_deterministic_in_samples 0 0 100
    "2025-07-04T00:00:00.000Z" _ _ rfl⟩

/-- C8: the simulated temperature is the latitude-dependent linear
baseline `20 − (|lat|/90)·25` plus the sinusoidal annual term
`15·sin(2π(dayOfYear − 81)/365)` plus a variation bounded by 5.5 (5 from
the random noise, 0.5 from rounding), and the precipitation branch is the
tropical one exactly when `|lat| < 23.5`. -/
theorem simulatedTemperature_seasonal_model
    (lat lon : ℝ) (dayOfYear : ℕ) (nowIso : String) (rand : ℕ → ℝ)
    (h0 : 0 ≤ rand 0) (h1 : rand 0 < 1) :
    (∃ v : ℝ, |v| ≤ 11/2 ∧
      ((getSimulatedWeather lat lon dayOfYear nowIso rand).temperature : ℝ) =
        simBaseTemp lat + simSeasonal dayOfYear + v) ∧
    simBaseTemp lat = 20 - |lat| / 90 * 25 ∧
    simSeasonal dayOfYear =
      15 * Real.sin (2 * Real.pi * ((dayOfYear : ℝ) - 81) / 365) ∧
    (∀ t : ℤ, simClimateBranch lat dayOfYear t = ClimateBranch.tropical ↔
      |lat| < 47/2) := by
  refine ⟨?_, rfl, rfl, ?_⟩
  · have ht : (getSimulatedWeather lat lon dayOfYear nowIso rand).temperature =
        jsRoundR (simBaseTemp lat + simSeasonal dayOfYear +
          (rand 0 - 1/2) * 10) := rfl
    have key : ∀ y u : ℝ, -5 ≤ u → u < 5 →
        |((⌊y + u + 1/2⌋ : ℤ) : ℝ) - y| ≤ 11/2 := by
      intro y u hu1 hu2
      have hf1 : ((⌊y + u + 1/2⌋ : ℤ) : ℝ) ≤ y + u + 1/2 := Int.floor_le _
      have hf2 : y + u + 1/2 < ((⌊y + u + 1/2⌋ : ℤ) : ℝ) + 1 :=
        Int.lt_floor_add_one _
      rw [abs_le]
      constructor <;> linarith
    have hu1 : -5 ≤ (rand 0 - 1/2) * 10 := by linarith
    have hu2 : (rand 0 - 1/2) * 10 < 5 := by linarith
    refine ⟨((getSimulatedWeather lat lon dayOfYear nowIso rand).temperature : ℝ) -
        (simBaseTemp lat + simSeasonal dayOfYear), ?_, by ring⟩
    rw [ht]
    exact key (simBaseTemp lat + simSeasonal dayOfYear)
      ((rand 0 - 1/2) * 10) hu1 hu2
  · intro t
    by_cases hlat : |lat| < 47/2
    · simp [simClimateBranch, hlat]
    · by_cases hwinter : (dayOfYear < 80 ∨ 300 < dayOfYear) ∧ t < 2 <;>
        simp [simClimateBranch, hlat, hwinter]

/-- Witness for C8 at the equator on day 81 with the constant-half sample
stream. -/
theorem simulatedTemperature_seasonal_model_witness :
    (0 ≤ (fun _ : ℕ => (1 : ℝ)/2) 0) ∧ ((fun _ : ℕ => (1 : ℝ)/2) 0 < 1) ∧
    ((∃ v : ℝ, |v| ≤ 11/2 ∧
      ((getSimulatedWeather 0 0 81 "2025-07-04T00:00:00.000Z"
          (fun _ : ℕ => (1 : ℝ)/2)).temperature : ℝ) =
        simBaseTemp 0 + simSeasonal 81 + v) ∧
     simBaseTemp 0 = 20 - |(0 : ℝ)| / 90 * 25 ∧
     simSeasonal 81 =
       15 * Real.sin (2 * Real.pi * (((81 : ℕ) : ℝ) - 81) / 365) ∧
     (∀ t : ℤ, simClimateBranch 0 81 t = ClimateBranch.tropical ↔
       |(0 : ℝ)| < 47/2)) :=
  ⟨by norm_num, by norm_num,
   simulatedTemperature_seasonal_model 0 0 81 "2025-07-04T00:00:00.000Z"
     (fun _ => 1/2) (by norm_num) (by norm_num)⟩

end NSAC
